import Mathlib

/-!
Verification of the koishi-plugin-skia-canvas install pipeline.

Shallow embedding of the plugin's platform-resolution + fetch + archive-extraction
pipeline, translated from the TypeScript sources:

* `index.ts` (switch-based `getNativeBinding`, `isMusl`, `handleFile` via `fetch`)
* the helper module (`extractTarGz` revisions 1 and 2, `extractZip`)
* the downloader module (`handleFile` via Quester, `downloadFonts`)
* the service class revision with the `platformArchMap`-based `getNativeBinding`
  and the `loadExtraFonts` startup path.

External effects (HTTP, the filesystem, the dynamic module loader, the libc
probe) are modelled as explicit inputs; the functions below reproduce the
control flow of the TypeScript code over those inputs, and emit event lists
where the order of side effects matters.
-/

/-! ## String helpers -/

/-- Containment: `strContains hay needle` holds when `needle` occurs
contiguously inside `hay`. -/
def strContains (hay needle : String) : Prop :=
  ∃ pre post, hay = pre ++ needle ++ post

/-- Suffix test: `strSuffix s suf` is true when the string `s` ends with
`suf` (checked on the underlying character lists). -/
def strSuffix (s suf : String) : Bool :=
  suf.data.isSuffixOf s.data

/-! ## Path model

Paths are lists of segments. Archive entry names are split on `/`; `..` and
`.` segments are collapsed the way Node's `path.join` normalizes them. -/

/-- Split a string into `/`-separated pieces (character-level, so that the
kernel can evaluate it). Empty pieces (leading, trailing, doubled slashes)
are produced and later dropped by `normSegs`. -/
def splitSegsAux : List Char → List Char → List String
  | [], cur => [String.mk cur.reverse]
  | c :: cs, cur =>
    if c = '/' then String.mk cur.reverse :: splitSegsAux cs []
    else splitSegsAux cs (c :: cur)

def splitSegs (s : String) : List String :=
  splitSegsAux s.data []

/-- Node `path.join` style normalization: `""` and `"."` segments are dropped,
`".."` pops the previously accumulated segment. -/
def normSegs (acc : List String) : List String → List String
  | [] => acc
  | s :: rest =>
    if s = "" ∨ s = "." then normSegs acc rest
    else if s = ".." then normSegs acc.dropLast rest
    else normSegs (acc ++ [s]) rest

/-- Node `path.join(base, name)` over segment lists. -/
def joinPath (base : List String) (name : String) : List String :=
  normSegs base (splitSegs name)

/-- Node `path.dirname` over segment lists. -/
def parentSegs (p : List String) : List String :=
  p.dropLast

/-- All ancestor paths created by `fs.mkdirSync(p, { recursive: true })`,
including `p` itself. -/
def segPrefixes (p : List String) : List (List String) :=
  (List.range (p.length + 1)).map (fun n => p.take n)

/-- The `fileName.endsWith("/")` zip directory-marker test. -/
def lastIsSlash (s : String) : Bool :=
  s.data.getLast? = some '/'

/-! ## Platform resolver

Two revisions exist in the repository: a `switch`-based resolver (`index.ts`)
and a `platformArchMap` object-literal resolver (the later service class).
Both are embedded. The boolean arguments are the results of the `isMusl()`
calls: the map revision evaluates `isMusl()` twice while building the object
literal (once for the `linux.x64` row, once for the `linux.arm64` row), so it
takes two booleans. -/

/-- Whether `platformArchMap[platform]` exists (the
`!platformArchMap[platform]` truthiness check of the map revision). -/
def platformHasKey (platform : String) : Bool :=
  platform = "android" ∨ platform = "win32" ∨ platform = "darwin" ∨
    platform = "freebsd" ∨ platform = "linux"

/-- Lookup of `platformArchMap[platform][arch]` in the map revision: the artifact name,
or `none` when the architecture row is absent. `m1`/`m2` are the values of the
two eager `isMusl()` calls in the object literal. -/
def platformArchLookup (m1 m2 : Bool) (platform arch : String) : Option String :=
  if platform = "android" then
    if arch = "arm64" then some "skia.android-arm64"
    else if arch = "arm" then some "skia.android-arm-eabi"
    else none
  else if platform = "win32" then
    if arch = "x64" then some "skia.win32-x64-msvc"
    else if arch = "ia32" then some "skia.win32-ia32-msvc"
    else if arch = "arm64" then some "skia.win32-arm64-msvc"
    else none
  else if platform = "darwin" then
    if arch = "x64" then some "skia.darwin-x64"
    else if arch = "arm64" then some "skia.darwin-arm64"
    else none
  else if platform = "freebsd" then
    if arch = "x64" then some "skia.freebsd-x64"
    else none
  else if platform = "linux" then
    if arch = "x64" then some (if m1 then "skia.linux-x64-musl" else "skia.linux-x64-gnu")
    else if arch = "arm64" then some (if m2 then "skia.linux-arm64-musl" else "skia.linux-arm64-gnu")
    else if arch = "arm" then some "skia.linux-arm-gnueabihf"
    else none
  else none

/-- The `platformArchMap`-based resolution step of `getNativeBinding` (service
class revision): unknown OS and unknown architecture each throw
`UnsupportedError` with the message built by the code. -/
def resolveMap (m1 m2 : Bool) (platform arch : String) : Except String String :=
  if platformHasKey platform = false then
    Except.error ("Unsupported OS: " ++ platform ++ ", architecture: " ++ arch)
  else
    match platformArchLookup m1 m2 platform arch with
    | none => Except.error ("Unsupported architecture on " ++ platform ++ ": " ++ arch)
    | some nodeName => Except.ok nodeName

/-- The `switch`-based resolution step of `getNativeBinding` (`index.ts`).
`musl` is the result of the `isMusl()` call in the taken branch. -/
def resolveSwitch (musl : Bool) (platform arch : String) : Except String String :=
  if platform = "android" then
    if arch = "arm64" then Except.ok "skia.android-arm64"
    else if arch = "arm" then Except.ok "skia.android-arm-eabi"
    else Except.error ("Unsupported architecture on Android " ++ arch)
  else if platform = "win32" then
    if arch = "x64" then Except.ok "skia.win32-x64-msvc"
    else if arch = "ia32" then Except.ok "skia.win32-ia32-msvc"
    else if arch = "arm64" then Except.ok "skia.win32-arm64-msvc"
    else Except.error ("Unsupported architecture on Windows: " ++ arch)
  else if platform = "darwin" then
    if arch = "x64" then Except.ok "skia.darwin-x64"
    else if arch = "arm64" then Except.ok "skia.darwin-arm64"
    else Except.error ("Unsupported architecture on macOS: " ++ arch)
  else if platform = "freebsd" then
    if arch = "x64" then Except.ok "skia.freebsd-x64"
    else Except.error ("Unsupported architecture on FreeBSD: " ++ arch)
  else if platform = "linux" then
    if arch = "x64" then
      Except.ok (if musl then "skia.linux-x64-musl" else "skia.linux-x64-gnu")
    else if arch = "arm64" then
      Except.ok (if musl then "skia.linux-arm64-musl" else "skia.linux-arm64-gnu")
    else if arch = "arm" then Except.ok "skia.linux-arm-gnueabihf"
    else Except.error ("Unsupported architecture on Linux: " ++ arch)
  else
    Except.error ("Unsupported OS: " ++ platform ++ ", architecture: " ++ arch)

/-- The supported (OS, architecture) table, as an explicit pair list. -/
def supportedPairs : List (String × String) :=
  [("android", "arm64"), ("android", "arm"),
   ("win32", "x64"), ("win32", "ia32"), ("win32", "arm64"),
   ("darwin", "x64"), ("darwin", "arm64"),
   ("freebsd", "x64"),
   ("linux", "x64"), ("linux", "arm64"), ("linux", "arm")]

/-! ## libc flavor detection (`isMusl`) -/

/-- Environment observed by `isMusl` in `index.ts`:
`hasReportFn` — `process.report` exists and `getReport` is a function;
`glibcVersionRuntime` — `report.header?.glibcVersionRuntime` (a string, or
`none` when the field/header is absent);
`lddProbe` — `some b` when `which ldd` + `readFileSync` succeed and `b` tells
whether the loader contents include `"musl"`; `none` when that probe throws. -/
structure ReportEnv where
  hasReportFn : Bool
  glibcVersionRuntime : Option String
  lddProbe : Option Bool

/-- JavaScript truthiness of `string | undefined`: `undefined` and `""` are
falsy, every other string is truthy. -/
def jsTruthyStr : Option String → Bool
  | none => false
  | some s => decide (s ≠ "")

/-- The `isMusl` of `index.ts`: with no usable `process.report`, probe the
dynamic loader via `ldd` and default to `true` on failure; otherwise return
`!glibcVersionRuntime`. -/
def isMusl (env : ReportEnv) : Bool :=
  if env.hasReportFn = false then
    match env.lddProbe with
    | some b => b
    | none => true
  else
    !(jsTruthyStr env.glibcVersionRuntime)

/-- The `isMusl` of the service-class revision: only the `ldd` probe, defaulting
to `true` on failure. -/
def isMusl002 (lddProbe : Option Bool) : Bool :=
  match lddProbe with
  | some b => b
  | none => true

/-! ## Probe-counting resolvers (libc detection caching)

`isMusl()` keeps no cache in either revision. To settle how often the
underlying probe runs, the resolvers are re-embedded threading a probe
counter: `results n` is the outcome of the `n`-th probe evaluation. -/

structure ProbeSt where
  count : Nat
  results : Nat → Bool

/-- One evaluation of `isMusl()` (the underlying probe). -/
def probeOnce (s : ProbeSt) : Bool × ProbeSt :=
  (s.results s.count, ⟨s.count + 1, s.results⟩)

/-- The map revision's resolution: building the `platformArchMap` object
literal evaluates `isMusl()` twice (the `linux.x64` and `linux.arm64` rows),
on every platform, before any lookup happens. -/
def resolveMapCounting (platform arch : String) (s0 : ProbeSt) :
    Except String String × ProbeSt :=
  let r1 := probeOnce s0
  let r2 := probeOnce r1.2
  (resolveMap r1.1 r2.1 platform arch, r2.2)

/-- The switch revision's resolution: `isMusl()` is evaluated only inside the
taken `linux`/`x64` or `linux`/`arm64` branch. -/
def resolveSwitchCounting (platform arch : String) (s0 : ProbeSt) :
    Except String String × ProbeSt :=
  if platform = "linux" then
    if arch = "x64" then
      let r := probeOnce s0
      (Except.ok (if r.1 then "skia.linux-x64-musl" else "skia.linux-x64-gnu"), r.2)
    else if arch = "arm64" then
      let r := probeOnce s0
      (Except.ok (if r.1 then "skia.linux-arm64-musl" else "skia.linux-arm64-gnu"), r.2)
    else (resolveSwitch false platform arch, s0)
  else (resolveSwitch false platform arch, s0)

/-! ## Filesystem-level archive extraction

A filesystem state is a set of directories plus files with byte content.
`fs.writeFileSync` fails with `ENOENT` (modelled as `Except.error` carrying
the offending path) when the parent directory does not exist;
`fs.mkdirSync(p, { recursive: true })` creates the directory and all its
ancestors. -/

structure FSt where
  dirs : List (List String)
  files : List (List String × List Nat)
deriving DecidableEq, Repr

/-- Model of `fs.writeFileSync(p, content)`: a single full-content write; `ENOENT`
when the parent directory is missing. Overwrites an existing file. -/
def writeFile (fs : FSt) (p : List String) (content : List Nat) :
    Except (List String) FSt :=
  if parentSegs p ∈ fs.dirs then
    Except.ok ⟨fs.dirs, (p, content) :: fs.files.filter (fun f => f.1 ≠ p)⟩
  else Except.error p

/-- Model of `fs.mkdirSync(p, { recursive: true })` (also
`ensureDirectoryExists`). -/
def mkdirRec (fs : FSt) (p : List String) : FSt :=
  ⟨fs.dirs ++ segPrefixes p, fs.files⟩

/-- One tar entry as delivered by `tar-stream`. -/
inductive TarKind where
  | directory
  | file
  | other
deriving DecidableEq, Repr

structure TarEntry where
  name : String
  kind : TarKind
  content : List Nat
deriving DecidableEq, Repr

/-- Filesystem effect of `extractTarGz` (revision 1 of the helper module):
directory entries are created recursively; file entries get
`ensureDirectoryExists(path.dirname(outputPath))` and then a write stream;
other kinds are drained and skipped. A write-stream error rejects the whole
operation. `outDir` is `path.dirname(filePath)`. -/
def extractTarRev1Run (outDir : List String) :
    List TarEntry → FSt → Except (List String) FSt
  | [], fs => Except.ok fs
  | e :: rest, fs =>
    let out := joinPath outDir e.name
    match e.kind with
    | TarKind.directory => extractTarRev1Run outDir rest (mkdirRec fs out)
    | TarKind.file =>
      let fs1 := mkdirRec fs (parentSegs out)
      match writeFile fs1 out e.content with
      | Except.error p => Except.error p
      | Except.ok fs2 => extractTarRev1Run outDir rest fs2
    | TarKind.other => extractTarRev1Run outDir rest fs

/-- Filesystem effect of `extractZip` (both helper revisions): entries whose
name ends in `/` are created as directories (recursively); every other entry
is written in one `fs.writeFileSync` call, with no parent-directory creation. -/
def extractZipRun (outDir : List String) :
    List (String × List Nat) → FSt → Except (List String) FSt
  | [], fs => Except.ok fs
  | (name, content) :: rest, fs =>
    let out := joinPath outDir name
    if lastIsSlash name then extractZipRun outDir rest (mkdirRec fs out)
    else
      match writeFile fs out content with
      | Except.error p => Except.error p
      | Except.ok fs1 => extractZipRun outDir rest fs1

/-- Success check mirroring `extractZipRun`: tracks the directory set and
requires each file entry's parent directory to exist at the moment the entry
is processed (pre-existing on disk, or created by an earlier
directory-marker entry). -/
def zipParentsOk (outDir : List String) :
    List (String × List Nat) → List (List String) → Bool
  | [], _ => true
  | (name, _) :: rest, dirs =>
    let out := joinPath outDir name
    if lastIsSlash name then zipParentsOk outDir rest (dirs ++ segPrefixes out)
    else decide (parentSegs out ∈ dirs) && zipParentsOk outDir rest dirs

/-! ## Event-ordering model of the tar entry handlers

The two `extractTarGz` revisions differ in how a file entry completes:
revision 1 attaches `next` to the destination write stream's `finish` event,
revision 2 attaches `next` to the source stream's `end` event. In Node, a
piped writable emits `finish` only after the source has emitted `end` (the
pipe calls `dest.end()` from the `end` handling) and the writable has flushed,
so under revision 2 the extractor advances — and processes further entries —
while the file write is still in flight. The traces below record one
admissible schedule of each revision. -/

inductive TEv where
  | mkdirp (p : List String)
  | openw (p : List String)
  | wdone (p : List String)
  | advance
deriving DecidableEq, Repr

/-- Revision 1 entry handler events: for a file, `ensureDirectoryExists`
on the parent, open the write stream, and only after `finish` (the write has
completed) call `next`. -/
def entryEvsRev1 (outDir : List String) (e : TarEntry) : List TEv :=
  let out := joinPath outDir e.name
  match e.kind with
  | TarKind.directory => [TEv.mkdirp out, TEv.advance]
  | TarKind.file =>
    [TEv.mkdirp (parentSegs out), TEv.openw out, TEv.wdone out, TEv.advance]
  | TarKind.other => [TEv.advance]

def archiveEvsRev1 (outDir : List String) : List TarEntry → List TEv
  | [] => []
  | e :: rest => entryEvsRev1 outDir e ++ archiveEvsRev1 outDir rest

/-- Revision 2 entry handler events: for a file, the write stream is opened
and `next` is called on the source stream's `end` — before the write stream
signals completion, whose `finish` lands only after subsequent processing.
No parent directory is created for file entries. -/
def archiveEvsRev2 (outDir : List String) : List TarEntry → List TEv
  | [] => []
  | e :: rest =>
    let out := joinPath outDir e.name
    match e.kind with
    | TarKind.directory => TEv.mkdirp out :: TEv.advance :: archiveEvsRev2 outDir rest
    | TarKind.file =>
      TEv.openw out :: TEv.advance :: (archiveEvsRev2 outDir rest ++ [TEv.wdone out])
    | TarKind.other => TEv.advance :: archiveEvsRev2 outDir rest

/-- Scanner: no advancing (and no second write) while a file write is pending,
and every opened write is eventually completed. The `Option` argument is the
path of the pending write, if any. -/
def noOverlapScan : Option (List String) → List TEv → Bool
  | none, [] => true
  | some _, [] => false
  | pending, ev :: rest =>
    match ev, pending with
    | TEv.openw p, none => noOverlapScan (some p) rest
    | TEv.openw _, some _ => false
    | TEv.wdone p, some q => decide (p = q) && noOverlapScan none rest
    | TEv.wdone _, none => false
    | TEv.advance, some _ => false
    | TEv.advance, none => noOverlapScan none rest
    | TEv.mkdirp _, pend => noOverlapScan pend rest

/-- Scanner: each opened file write has its parent directory present, either
in the initial directory set or created by an earlier `mkdirp`. -/
def dirsOkScan (dirs : List (List String)) : List TEv → Bool
  | [] => true
  | TEv.mkdirp p :: rest => dirsOkScan (dirs ++ segPrefixes p) rest
  | TEv.openw p :: rest => decide (parentSegs p ∈ dirs) && dirsOkScan dirs rest
  | _ :: rest => dirsOkScan dirs rest

/-! ## Fetching and binding installation

JavaScript error values are classified by constructor; the fetch pipeline's
external world (registry response, download terminal status, tarball
contents, `require` outcome) is an explicit environment. String paths use
`/`-concatenation, mirroring `path.join` on the clean inputs involved. -/

inductive JsErr where
  | unsupported (msg : String)
  | downloadErr (msg : String)
  | typeErr (msg : String)
  | genericErr (msg : String)
deriving DecidableEq, Repr

/-- Observable effects of one installer invocation, in order. -/
inductive NetEv where
  | assignGlobal (p : String)
  | netRegistry (url : String)
  | netDownload (url : String)
  | requireLoad
deriving DecidableEq, Repr

/-- True when the event list contains no network request (neither the
registry metadata request nor a download). -/
def noNet (evs : List NetEv) : Bool :=
  evs.all fun e =>
    match e with
    | NetEv.netRegistry _ => false
    | NetEv.netDownload _ => false
    | _ => true

/-- True when the event list contains no download request. -/
def noDownload (evs : List NetEv) : Bool :=
  evs.all fun e =>
    match e with
    | NetEv.netDownload _ => false
    | _ => true

/-- Whether an outcome is a thrown `DownloadError`. -/
def isDownloadError : Except JsErr Unit → Bool
  | Except.error (JsErr.downloadErr _) => true
  | _ => false

/-- External world of `handleFile`: `registry` is the metadata call outcome —
`Except.error` when the HTTP call fails, `Except.ok none` when the response
has no `dist` object, `Except.ok (some none)` when `dist` lacks `tarball`,
and `Except.ok (some (some url))` when `dist.tarball` is present.
`downloadOk` is `downloadStatus === "COMPLETE"`; `archiveEntries` are the
file names (relative to the destination directory) that extracting the
downloaded tarball writes. -/
structure FetchEnv where
  registry : Except String (Option (Option String))
  downloadOk : Bool
  archiveEntries : List String

/-- The `handleFile` of the downloader module (Quester revision, pinned
`v0.1.53` on the npmmirror registry): the response field access happens
inside the `try`, so a missing `dist` object is caught and wrapped in
`DownloadError` like an HTTP failure. Returns the outcome, the updated file
list, and the events. -/
def handleFile000Run (nodeDir nodeName : String) (env : FetchEnv)
    (fs : List String) : Except JsErr Unit × List String × List NetEv :=
  let url := "https://registry.npmmirror.com/@napi-rs/" ++
    (nodeName.replace "skia." "canvas-") ++ "/v0.1.53"
  match env.registry with
  | Except.error e =>
    (Except.error (JsErr.downloadErr ("Failed to fetch from URL: " ++ e)), fs,
      [NetEv.netRegistry url])
  | Except.ok none =>
    (Except.error (JsErr.downloadErr
        ("Failed to fetch from URL: Cannot read properties of undefined")), fs,
      [NetEv.netRegistry url])
  | Except.ok (some none) =>
    (Except.error (JsErr.downloadErr ("Failed to get the binary url from " ++ url)),
      fs, [NetEv.netRegistry url])
  | Except.ok (some (some tarballUrl)) =>
    if env.downloadOk then
      (Except.ok (), fs ++ env.archiveEntries.map (fun e => nodeDir ++ "/" ++ e),
        [NetEv.netRegistry url, NetEv.netDownload tarballUrl])
    else
      (Except.error (JsErr.downloadErr "Download was aborted"), fs,
        [NetEv.netRegistry url, NetEv.netDownload tarballUrl])

/-- The `handleFile` of `index.ts` (`fetch` on registry.npmjs.org, `latest`):
here `data.dist.tarball` is read outside the `try`, so when the response has
no `dist` object the raw `TypeError` escapes instead of a `DownloadError`;
the download+extract step is wrapped and re-thrown as `DownloadError`. -/
def handleFileFetchRun (nodeDir nodeName : String) (env : FetchEnv)
    (fs : List String) : Except JsErr Unit × List String × List NetEv :=
  let url := "https://registry.npmjs.org/@napi-rs/" ++
    (nodeName.replace "skia." "canvas-") ++ "/latest"
  match env.registry with
  | Except.error e =>
    (Except.error (JsErr.downloadErr ("Failed to fetch from URL: " ++ e)), fs,
      [NetEv.netRegistry url])
  | Except.ok none =>
    (Except.error (JsErr.typeErr
        "Cannot read properties of undefined (reading tarball)"), fs,
      [NetEv.netRegistry url])
  | Except.ok (some none) =>
    (Except.error (JsErr.downloadErr "Failed to get File url"), fs,
      [NetEv.netRegistry url])
  | Except.ok (some (some tarballUrl)) =>
    if env.downloadOk then
      (Except.ok (), fs ++ env.archiveEntries.map (fun e => nodeDir ++ "/" ++ e),
        [NetEv.netRegistry url, NetEv.netDownload tarballUrl])
    else
      (Except.error (JsErr.downloadErr
          "Failed to download the binary file: Download was aborted"), fs,
        [NetEv.netRegistry url, NetEv.netDownload tarballUrl])

/-- The expected local path of the native binary:
`path.join(nodeDir, "package", nodeName + ".node")`. -/
def nodePathOf (nodeDir nodeName : String) : String :=
  nodeDir ++ "/" ++ ("package/" ++ (nodeName ++ ".node"))

/-- The tarball-relative name of the native binary inside the package. -/
def entryNameOf (nodeName : String) : String :=
  "package/" ++ (nodeName ++ ".node")

/-- Environment of one `getNativeBinding` invocation (service-class
revision): the two eager `isMusl()` results, `process.platform`/`arch`, the
fetch world, and whether `require` of the extracted module succeeds. -/
structure InstEnv where
  m1 : Bool
  m2 : Bool
  platform : String
  arch : String
  fetch : FetchEnv
  requireOk : Bool

/-- Result of one `getNativeBinding` invocation: the outcome, the final file
list, the value of `global.GLOBAL_NATIVE_BINDING_PATH`, and the events of
this invocation in order. -/
structure InstResult where
  result : Except JsErr Unit
  fs : List String
  globalBinding : Option String
  events : List NetEv

/-- Orchestrator `getNativeBinding` (service-class revision): resolve the platform via the
`platformArchMap`, compute `nodePath`, check `fs.existsSync`, assign
`global.GLOBAL_NATIVE_BINDING_PATH`, then download-and-extract only when the
file is absent, and finally `require` the module. A `DownloadError` is
re-thrown as is; any other failure inside the `try` is wrapped in a generic
`Error` naming the path and platform. `g0` is the prior value of the global. -/
def getNativeBinding002Run (nodeDir : String) (env : InstEnv)
    (fs0 : List String) (g0 : Option String) : InstResult :=
  match resolveMap env.m1 env.m2 env.platform env.arch with
  | Except.error msg => ⟨Except.error (JsErr.unsupported msg), fs0, g0, []⟩
  | Except.ok nodeName =>
    let nodePath := nodePathOf nodeDir nodeName
    let failMsg := "Failed to use " ++ nodePath ++ " on " ++
      env.platform ++ "-" ++ env.arch
    if nodePath ∈ fs0 then
      if env.requireOk then
        ⟨Except.ok (), fs0, some nodePath, [NetEv.assignGlobal nodePath, NetEv.requireLoad]⟩
      else
        ⟨Except.error (JsErr.genericErr failMsg), fs0, some nodePath,
          [NetEv.assignGlobal nodePath, NetEv.requireLoad]⟩
    else
      match handleFile000Run nodeDir nodeName env.fetch fs0 with
      | (Except.error e, fs1, evs) =>
        match e with
        | JsErr.downloadErr m =>
          ⟨Except.error (JsErr.downloadErr m), fs1, some nodePath,
            NetEv.assignGlobal nodePath :: evs⟩
        | _ =>
          ⟨Except.error (JsErr.genericErr failMsg), fs1, some nodePath,
            NetEv.assignGlobal nodePath :: evs⟩
      | (Except.ok _, fs1, evs) =>
        if env.requireOk then
          ⟨Except.ok (), fs1, some nodePath,
            (NetEv.assignGlobal nodePath :: evs) ++ [NetEv.requireLoad]⟩
        else
          ⟨Except.error (JsErr.genericErr failMsg), fs1, some nodePath,
            (NetEv.assignGlobal nodePath :: evs) ++ [NetEv.requireLoad]⟩

/-! ## Plugin startup (`Canvas.start`) and font installation -/

inductive LogEv where
  | errUnsupportedSys
  | errDownloadBin
  | successLoad
  | errPresetFontDownload
  | fontsLoaded
  | fontsLoadedNoPreset
deriving DecidableEq, Repr

/-- Startup helper `loadExtraFonts` (service-class revision): load fonts already on disk;
when the preset font archive marker is absent, download it — a
`downloadFonts` failure is caught inside the function, logged, and the
function returns normally. The function never throws for a fetch/extract
failure, so only the log list is produced. -/
def loadExtraFontsRun (markerExists : Bool) (fontDl : Except String Unit) :
    List LogEv :=
  if markerExists then [LogEv.fontsLoaded]
  else
    match fontDl with
    | Except.error _ => [LogEv.errPresetFontDownload, LogEv.fontsLoadedNoPreset]
    | Except.ok _ => [LogEv.fontsLoaded]

/-- Startup `Canvas.start` (service-class revision): await `getNativeBinding` in a
`try` that logs by error kind and re-throws; on success wire the binding and
fire `loadExtraFonts(fontDir).catch(log)` — the font path is fire-and-forget
and doubly caught, so its outcome never reaches `start`'s caller.
`binding` is the `getNativeBinding` outcome, `markerExists` whether the
preset font archive is already on disk, `fontDl` the `downloadFonts`
outcome. -/
def startRun (binding : Except JsErr Unit) (markerExists : Bool)
    (fontDl : Except String Unit) : Except JsErr Unit × List LogEv :=
  match binding with
  | Except.error e =>
    let logs :=
      match e with
      | JsErr.unsupported _ => [LogEv.errUnsupportedSys]
      | JsErr.downloadErr _ => [LogEv.errDownloadBin]
      | _ => []
    (Except.error e, logs)
  | Except.ok _ =>
    (Except.ok (), LogEv.successLoad :: loadExtraFontsRun markerExists fontDl)

/-! ## Helper lemmas -/

theorem strAppend_assoc (a b c : String) : a ++ b ++ c = a ++ (b ++ c) := by
  cases a with
  | mk la =>
  cases b with
  | mk lb =>
  cases c with
  | mk lc =>
  show String.mk (la ++ lb ++ lc) = String.mk (la ++ (lb ++ lc))
  rw [List.append_assoc]

theorem strAppend_empty (a : String) : a ++ "" = a := by
  cases a with
  | mk la =>
  show String.mk (la ++ []) = String.mk la
  rw [List.append_nil]

theorem contains_mid3 (a p b q : String) : strContains (a ++ p ++ b ++ q) p :=
  ⟨a, b ++ q, by simp only [strAppend_assoc]⟩

theorem contains_last3 (a p b q : String) : strContains (a ++ p ++ b ++ q) q :=
  ⟨a ++ p ++ b, "", by simp only [strAppend_assoc, strAppend_empty]⟩

theorem resolveMap_unknown_os (m1 m2 : Bool) (os arch : String)
    (h : platformHasKey os = false) :
    resolveMap m1 m2 os arch =
      Except.error ("Unsupported OS: " ++ os ++ ", architecture: " ++ arch) := by
  simp [resolveMap, h]

theorem resolveMap_unknown_arch (m1 m2 : Bool) (os arch : String)
    (hk : platformHasKey os = true)
    (h : platformArchLookup m1 m2 os arch = none) :
    resolveMap m1 m2 os arch =
      Except.error ("Unsupported architecture on " ++ os ++ ": " ++ arch) := by
  simp [resolveMap, hk, h]

/-! ## C1: the platform resolver is total on its table and fails closed -/

/-- C1: for every (OS, architecture) pair in the `platformArchMap` table,
resolution returns an artifact identifier (one fixed string, since the
resolver is a function of the inputs), and for every pair not in the table it
returns the `UnsupportedError` whose message carries the offending `os` and
`arch` values — never a default identifier. -/
theorem claim1_resolver_fail_closed :
    ∀ (m1 m2 : Bool) (os arch : String),
      ((os, arch) ∈ supportedPairs →
        ∃ id, resolveMap m1 m2 os arch = Except.ok id) ∧
      ((os, arch) ∉ supportedPairs →
        ∃ msg, resolveMap m1 m2 os arch = Except.error msg ∧
          strContains msg os ∧ strContains msg arch) := by
  intro m1 m2 os arch
  constructor
  · intro hmem
    simp only [supportedPairs, List.mem_cons, List.not_mem_nil, or_false,
      Prod.mk.injEq] at hmem
    rcases hmem with ⟨h1, h2⟩ | ⟨h1, h2⟩ | ⟨h1, h2⟩ | ⟨h1, h2⟩ | ⟨h1, h2⟩ |
      ⟨h1, h2⟩ | ⟨h1, h2⟩ | ⟨h1, h2⟩ | ⟨h1, h2⟩ | ⟨h1, h2⟩ | ⟨h1, h2⟩ <;>
      subst h1 <;> subst h2 <;> exact ⟨_, rfl⟩
  · intro hnot
    by_cases hA : os = "android"
    · subst hA
      by_cases h1 : arch = "arm64"
      · exact absurd (by subst h1; decide) hnot
      by_cases h2 : arch = "arm"
      · exact absurd (by subst h2; decide) hnot
      exact ⟨_, resolveMap_unknown_arch m1 m2 _ arch (by decide)
          (by simp [platformArchLookup, h1, h2]),
        contains_mid3 "Unsupported architecture on " "android" ": " arch,
        contains_last3 "Unsupported architecture on " "android" ": " arch⟩
    by_cases hW : os = "win32"
    · subst hW
      by_cases h1 : arch = "x64"
      · exact absurd (by subst h1; decide) hnot
      by_cases h2 : arch = "ia32"
      · exact absurd (by subst h2; decide) hnot
      by_cases h3 : arch = "arm64"
      · exact absurd (by subst h3; decide) hnot
      exact ⟨_, resolveMap_unknown_arch m1 m2 _ arch (by decide)
          (by simp [platformArchLookup, h1, h2, h3]),
        contains_mid3 "Unsupported architecture on " "win32" ": " arch,
        contains_last3 "Unsupported architecture on " "win32" ": " arch⟩
    by_cases hD : os = "darwin"
    · subst hD
      by_cases h1 : arch = "x64"
      · exact absurd (by subst h1; decide) hnot
      by_cases h2 : arch = "arm64"
      · exact absurd (by subst h2; decide) hnot
      exact ⟨_, resolveMap_unknown_arch m1 m2 _ arch (by decide)
          (by simp [platformArchLookup, h1, h2]),
        contains_mid3 "Unsupported architecture on " "darwin" ": " arch,
        contains_last3 "Unsupported architecture on " "darwin" ": " arch⟩
    by_cases hF : os = "freebsd"
    · subst hF
      by_cases h1 : arch = "x64"
      · exact absurd (by subst h1; decide) hnot
      exact ⟨_, resolveMap_unknown_arch m1 m2 _ arch (by decide)
          (by simp [platformArchLookup, h1]),
        contains_mid3 "Unsupported architecture on " "freebsd" ": " arch,
        contains_last3 "Unsupported architecture on " "freebsd" ": " arch⟩
    by_cases hL : os = "linux"
    · subst hL
      by_cases h1 : arch = "x64"
      · exact absurd (by subst h1; decide) hnot
      by_cases h2 : arch = "arm64"
      · exact absurd (by subst h2; decide) hnot
      by_cases h3 : arch = "arm"
      · exact absurd (by subst h3; decide) hnot
      exact ⟨_, resolveMap_unknown_arch m1 m2 _ arch (by decide)
          (by simp [platformArchLookup, h1, h2, h3]),
        contains_mid3 "Unsupported architecture on " "linux" ": " arch,
        contains_last3 "Unsupported architecture on " "linux" ": " arch⟩
    exact ⟨_, resolveMap_unknown_os m1 m2 os arch
        (by simp [platformHasKey, hA, hW, hD, hF, hL]),
      contains_mid3 "Unsupported OS: " os ", architecture: " arch,
      contains_last3 "Unsupported OS: " os ", architecture: " arch⟩

/-- Witness for C1: a supported pair resolves to an identifier; the
unsupported pair ("plan9", "x64") yields an error message carrying both
values. -/
theorem claim1_resolver_fail_closed_witness :
    (∃ id, resolveMap false false "win32" "x64" = Except.ok id) ∧
    (∃ msg, resolveMap false false "plan9" "x64" = Except.error msg ∧
      strContains msg "plan9" ∧ strContains msg "x64") :=
  ⟨(claim1_resolver_fail_closed false false "win32" "x64").1 (by decide),
   (claim1_resolver_fail_closed false false "plan9" "x64").2 (by decide)⟩

/-! ## C2: font-installation failure is isolated, binding failure propagates -/

/-- C2: `start`'s outcome equals the `getNativeBinding` outcome — a
`downloadFonts` fetch failure never changes it (it is caught and logged),
while a binding-installation error (unsupported platform, download error)
propagates out of `start` unchanged. -/
theorem claim2_font_failure_isolated :
    ∀ (b : Except JsErr Unit) (me : Bool) (f : Except String Unit),
      (startRun b me f).1 = b ∧
      (∀ m, b = Except.ok () → me = false → f = Except.error m →
        LogEv.errPresetFontDownload ∈ (startRun b me f).2) := by
  intro b me f
  constructor
  · cases b with
    | error e => rfl
    | ok u => cases u; rfl
  · intro m hb hme hf
    subst hb; subst hme; subst hf
    simp [startRun, loadExtraFontsRun]

/-- Witness for C2: a concrete font fetch failure leaves startup successful
(and is logged), while a concrete binding download failure aborts startup. -/
theorem claim2_font_failure_isolated_witness :
    (startRun (Except.ok ()) false (Except.error "fetch failed")).1 =
      Except.ok () ∧
    (startRun (Except.error (JsErr.downloadErr "aborted")) false
        (Except.ok ())).1 = Except.error (JsErr.downloadErr "aborted") ∧
    LogEv.errPresetFontDownload ∈
      (startRun (Except.ok ()) false (Except.error "fetch failed")).2 :=
  ⟨(claim2_font_failure_isolated (Except.ok ()) false
      (Except.error "fetch failed")).1,
   (claim2_font_failure_isolated (Except.error (JsErr.downloadErr "aborted"))
      false (Except.ok ())).1,
   (claim2_font_failure_isolated (Except.ok ()) false
      (Except.error "fetch failed")).2 "fetch failed" rfl rfl rfl⟩

/-! ## C7: the libc probe is not cached -/

/-- C7 counterexample: in the `platformArchMap` revision a single resolution
evaluates the libc probe twice (the object literal evaluates `isMusl()` for
both linux rows), refuting "evaluated at most once"; and in the `switch`
revision a second resolution on linux/x64 re-evaluates the probe, refuting
"never re-evaluated after first use". -/
theorem claim7_counterexample :
    ¬ ((resolveMapCounting "linux" "x64" ⟨0, fun _ => false⟩).2.count ≤ 1) ∧
    (resolveSwitchCounting "linux" "x64"
      (resolveSwitchCounting "linux" "x64" ⟨0, fun _ => false⟩).2).2.count = 2 := by
  exact ⟨by decide, rfl⟩

/-- C7 (amended): the libc probe result is not cached. The
`platformArchMap`-based resolver evaluates the probe exactly twice on every
resolution (whatever the platform), and the `switch`-based resolver evaluates
it exactly once per resolution when (platform, arch) is linux/x64 or
linux/arm64 and never otherwise — so each new resolution re-runs the probe. -/
theorem claim7_probe_not_cached :
    ∀ (platform arch : String) (s : ProbeSt),
      ((resolveMapCounting platform arch s).2.count = s.count + 2) ∧
      ((resolveSwitchCounting platform arch s).2.count =
        if platform = "linux" ∧ (arch = "x64" ∨ arch = "arm64") then
          s.count + 1
        else s.count) := by
  intro platform arch s
  constructor
  · rfl
  · by_cases hL : platform = "linux"
    · subst hL
      by_cases h1 : arch = "x64"
      · subst h1; simp [resolveSwitchCounting, probeOnce]
      · by_cases h2 : arch = "arm64"
        · subst h2; simp [resolveSwitchCounting, probeOnce, h1]
        · simp [resolveSwitchCounting, probeOnce, h1, h2]
    · simp [resolveSwitchCounting, hL]

/-! ## C8: linux x64 artifact suffix tracks libc detection -/

/-- C8 counterexample: a system report that does contain the
`glibcVersionRuntime` field, with the empty string as its value, is falsy in
JavaScript, so `isMusl` returns `true` and resolution yields the `-musl`
artifact — not one ending in `-gnu` as the claim ("presence implies glibc")
requires. -/
theorem claim8_counterexample :
    (some "" : Option String).isSome = true ∧
    isMusl ⟨true, some "", none⟩ = true ∧
    resolveSwitch (isMusl ⟨true, some "", none⟩) "linux" "x64" =
      Except.ok "skia.linux-x64-musl" ∧
    strSuffix "skia.linux-x64-musl" "-gnu" = false :=
  ⟨rfl, rfl, rfl, by decide⟩

/-- C8 (amended): for (os="linux", arch="x64"), when the structured system
report carries a non-empty (truthy) glibc runtime version string the resolved
identifier ends in "-gnu"; when the field is absent or empty, or the fallback
`ldd` probe concludes musl or fails, it ends in "-musl". -/
theorem claim8_linux_x64_suffix :
    ∀ (g : Option String) (ldd lp : Option Bool) (v : String),
      (g = some v → v ≠ "" →
        ∃ id, resolveSwitch (isMusl ⟨true, g, ldd⟩) "linux" "x64" =
          Except.ok id ∧ strSuffix id "-gnu" = true) ∧
      (g = none →
        ∃ id, resolveSwitch (isMusl ⟨true, g, ldd⟩) "linux" "x64" =
          Except.ok id ∧ strSuffix id "-musl" = true) ∧
      (g = some "" →
        ∃ id, resolveSwitch (isMusl ⟨true, g, ldd⟩) "linux" "x64" =
          Except.ok id ∧ strSuffix id "-musl" = true) ∧
      ((lp = some true ∨ lp = none) →
        ∃ id, resolveSwitch (isMusl ⟨false, g, lp⟩) "linux" "x64" =
          Except.ok id ∧ strSuffix id "-musl" = true) := by
  intro g ldd lp v
  refine ⟨?_, ?_, ?_, ?_⟩
  · intro hg hv
    subst hg
    have hm : isMusl ⟨true, some v, ldd⟩ = false := by
      simp [isMusl, jsTruthyStr, hv]
    exact ⟨"skia.linux-x64-gnu", by rw [hm]; rfl, by decide⟩
  · intro hg
    subst hg
    exact ⟨"skia.linux-x64-musl", rfl, by decide⟩
  · intro hg
    subst hg
    exact ⟨"skia.linux-x64-musl", rfl, by decide⟩
  · intro hlp
    rcases hlp with h | h <;> subst h
    · exact ⟨"skia.linux-x64-musl", rfl, by decide⟩
    · exact ⟨"skia.linux-x64-musl", rfl, by decide⟩

/-- Witness for C8 (amended): a report with glibc runtime version "2.31"
resolves to the `-gnu` artifact; an absent field resolves to `-musl`. -/
theorem claim8_linux_x64_suffix_witness :
    (∃ id, resolveSwitch (isMusl ⟨true, some "2.31", none⟩) "linux" "x64" =
      Except.ok id ∧ strSuffix id "-gnu" = true) ∧
    (∃ id, resolveSwitch (isMusl ⟨true, none, none⟩) "linux" "x64" =
      Except.ok id ∧ strSuffix id "-musl" = true) :=
  ⟨(claim8_linux_x64_suffix (some "2.31") none none "2.31").1 rfl (by decide),
   (claim8_linux_x64_suffix none none none "").2.1 rfl⟩

/-! ## C3: tar extraction advance ordering -/

theorem mem_segPrefixes_self (p : List String) : p ∈ segPrefixes p := by
  simp only [segPrefixes, List.mem_map, List.mem_range]
  exact ⟨p.length, by omega, List.take_length p⟩

/-- C3 counterexample: under the revision-2 entry handler, extracting a file
entry `sub/a.txt` advances (`next` fires on the source stream's `end`) while
the destination write is still pending, and no parent directory is created
for the file — refuting both halves of the claim for that handler. -/
theorem claim3_counterexample :
    noOverlapScan none
      (archiveEvsRev2 ["d"] [⟨"sub/a.txt", TarKind.file, []⟩]) = false ∧
    dirsOkScan [["d"]]
      (archiveEvsRev2 ["d"] [⟨"sub/a.txt", TarKind.file, []⟩]) = false := by
  exact ⟨rfl, by decide⟩

/-- C3 (amended, revision-1 handler): the revision-1 `extractTarGz` entry
handler advances only after the destination write stream has signalled
completion — no `next` and no further write happens while a file write is
pending — and each file's parent directory is ensured (created) before the
file is written beneath it. The revision-2 handler does neither. -/
theorem claim3_rev1_ordering :
    ∀ (outDir : List String) (es : List TarEntry) (dirs0 : List (List String)),
      noOverlapScan none (archiveEvsRev1 outDir es) = true ∧
      dirsOkScan dirs0 (archiveEvsRev1 outDir es) = true := by
  intro outDir es
  induction es with
  | nil => intro dirs0; exact ⟨rfl, rfl⟩
  | cons e rest ih =>
    intro dirs0
    constructor
    · cases hk : e.kind <;>
        simp only [archiveEvsRev1, entryEvsRev1, hk, List.cons_append,
          List.nil_append, noOverlapScan, decide_eq_true_eq] <;>
        simp [ih dirs0 |>.1]
    · cases hk : e.kind
      · simp only [archiveEvsRev1, entryEvsRev1, hk, List.cons_append,
          List.nil_append, dirsOkScan]
        exact (ih _).2
      · have hmem : parentSegs (joinPath outDir e.name) ∈
            dirs0 ++ segPrefixes (parentSegs (joinPath outDir e.name)) :=
          List.mem_append_right _ (mem_segPrefixes_self _)
        simp only [archiveEvsRev1, entryEvsRev1, hk, List.cons_append,
          List.nil_append, dirsOkScan, hmem, decide_True, Bool.true_and]
        exact (ih _).2
      · simp only [archiveEvsRev1, entryEvsRev1, hk, List.cons_append,
          List.nil_append, dirsOkScan]
        exact (ih _).2

/-! ## C4: archive entry names are not sanitized (path traversal) -/

/-- C4 evaluation at the failing input: a tar (revision 1) entry and a zip
entry named `../evil.txt`, extracted next to an archive at
`/home/user/pkg/…`, are materialized at `/home/user/evil.txt` — outside the
destination directory — because both paths `path.join` the destination with
the raw entry name and perform no containment check. -/
theorem claim4_traversal_escape :
    joinPath ["home", "user", "pkg"] "../evil.txt" =
      ["home", "user", "evil.txt"] ∧
    List.isPrefixOf ["home", "user", "pkg"] ["home", "user", "evil.txt"] =
      false ∧
    (∃ fs1, extractTarRev1Run ["home", "user", "pkg"]
        [⟨"../evil.txt", TarKind.file, [7]⟩]
        ⟨segPrefixes ["home", "user", "pkg"], []⟩ = Except.ok fs1 ∧
      (["home", "user", "evil.txt"], [7]) ∈ fs1.files) ∧
    (∃ fs2, extractZipRun ["home", "user", "pkg"] [("../evil.txt", [7])]
        ⟨segPrefixes ["home", "user", "pkg"], []⟩ = Except.ok fs2 ∧
      (["home", "user", "evil.txt"], [7]) ∈ fs2.files) := by
  refine ⟨by decide, by decide, ⟨_, rfl, by decide⟩, ⟨_, rfl, by decide⟩⟩

/-! ## C10: zip writes need a pre-existing parent directory, tar creates it -/

/-- C10: zip extraction succeeds exactly when every file entry's parent
directory exists at the moment the entry is written — pre-existing on disk or
created by an earlier directory-marker entry (name ending in `/`) — a file
write with a missing parent raises `ENOENT` and aborts; the revision-1 tar
path, by contrast, creates each file's parent directory first and therefore
never fails this way. -/
theorem claim10_zip_parent_requirement :
    ∀ (outDir : List String) (fs : FSt),
      (∀ entries, (extractZipRun outDir entries fs).isOk =
        zipParentsOk outDir entries fs.dirs) ∧
      (∀ es, (extractTarRev1Run outDir es fs).isOk = true) := by
  intro outDir fs
  constructor
  · intro entries
    induction entries generalizing fs with
    | nil => rfl
    | cons ent rest ih =>
      rcases ent with ⟨name, content⟩
      by_cases hs : lastIsSlash name = true
      · simp only [extractZipRun, zipParentsOk, hs, if_true]
        exact ih _
      · rw [Bool.not_eq_true] at hs
        by_cases hp : parentSegs (joinPath outDir name) ∈ fs.dirs
        · simp only [extractZipRun, zipParentsOk, hs, Bool.false_eq_true,
            if_false, writeFile, hp, if_true, decide_True, Bool.true_and]
          exact ih _
        · simp only [extractZipRun, zipParentsOk, hs, Bool.false_eq_true,
            if_false, writeFile, hp, if_false]
          simp [Except.isOk, Except.toBool, hp]
  · intro es
    induction es generalizing fs with
    | nil => rfl
    | cons e rest ih =>
      cases hk : e.kind
      · simp only [extractTarRev1Run, hk]
        exact ih _
      · have hp : parentSegs (joinPath outDir e.name) ∈
            (mkdirRec fs (parentSegs (joinPath outDir e.name))).dirs :=
          List.mem_append_right _ (mem_segPrefixes_self _)
        simp only [extractTarRev1Run, hk, writeFile, hp, if_true]
        exact ih _
      · simp only [extractTarRev1Run, hk]
        exact ih _

/-! ## C5 and C9: installer orchestration -/

theorem run_events_of_mem (nodeDir : String) (env : InstEnv) (fs : List String)
    (g : Option String) (nodeName : String)
    (hres : resolveMap env.m1 env.m2 env.platform env.arch = Except.ok nodeName)
    (hmem : nodePathOf nodeDir nodeName ∈ fs) :
    (getNativeBinding002Run nodeDir env fs g).events =
      [NetEv.assignGlobal (nodePathOf nodeDir nodeName), NetEv.requireLoad] := by
  simp only [getNativeBinding002Run, hres]
  rw [if_pos hmem]
  cases hr : env.requireOk <;> simp [hr]

theorem run_ok_fs_mem (nodeDir : String) (env : InstEnv) (fs0 : List String)
    (g0 : Option String) (nodeName : String)
    (hres : resolveMap env.m1 env.m2 env.platform env.arch = Except.ok nodeName)
    (hentry : entryNameOf nodeName ∈ env.fetch.archiveEntries)
    (hok : (getNativeBinding002Run nodeDir env fs0 g0).result = Except.ok ()) :
    nodePathOf nodeDir nodeName ∈ (getNativeBinding002Run nodeDir env fs0 g0).fs := by
  rcases env with ⟨m1, m2, pf, ar, ⟨reg, dlOk, ents⟩, rq⟩
  simp only at hres hentry
  simp only [getNativeBinding002Run, hres] at hok ⊢
  by_cases hx : nodePathOf nodeDir nodeName ∈ fs0
  · rw [if_pos hx] at hok ⊢
    cases rq
    · simp at hok
    · simpa using hx
  · rw [if_neg hx] at hok ⊢
    cases reg with
    | error e => simp [handleFile000Run] at hok
    | ok o =>
      cases o with
      | none => simp [handleFile000Run] at hok
      | some t =>
        cases t with
        | none => simp [handleFile000Run] at hok
        | some turl =>
          cases dlOk
          · simp [handleFile000Run] at hok
          · cases rq
            · simp [handleFile000Run] at hok
            · exact List.mem_append_right _
                (List.mem_map.mpr ⟨entryNameOf nodeName, hentry, rfl⟩)

/-- C5: when the expected native binary file already exists at
`nodeDir/package/<artifact>.node`, the installer performs no network request
at all (its only events are the global assignment and the module load); and
after any successful invocation (given that the fetched package tarball
contains the expected `package/<artifact>.node` entry), a second invocation
against the resulting directory performs zero network requests. -/
theorem claim5_installer_idempotent :
    ∀ (nodeDir : String) (env : InstEnv) (fs0 : List String)
      (g0 : Option String) (nodeName : String),
      resolveMap env.m1 env.m2 env.platform env.arch = Except.ok nodeName →
      entryNameOf nodeName ∈ env.fetch.archiveEntries →
      ((nodePathOf nodeDir nodeName ∈ fs0 →
        (getNativeBinding002Run nodeDir env fs0 g0).events =
          [NetEv.assignGlobal (nodePathOf nodeDir nodeName), NetEv.requireLoad]) ∧
      ((getNativeBinding002Run nodeDir env fs0 g0).result = Except.ok () →
        noNet (getNativeBinding002Run nodeDir env
            (getNativeBinding002Run nodeDir env fs0 g0).fs
            (getNativeBinding002Run nodeDir env fs0 g0).globalBinding).events =
          true)) := by
  intro nodeDir env fs0 g0 nodeName hres hentry
  constructor
  · intro hmem
    exact run_events_of_mem nodeDir env fs0 g0 nodeName hres hmem
  · intro hok
    rw [run_events_of_mem nodeDir env _ _ nodeName hres
      (run_ok_fs_mem nodeDir env fs0 g0 nodeName hres hentry hok)]
    rfl

/-- Witness for C5: concretely, with the file already present the events are
exactly assignment + load; and a successful first call against an empty
directory leaves a state on which the second call makes no network request. -/
theorem claim5_installer_idempotent_witness :
    ((getNativeBinding002Run "/nd"
        ⟨false, false, "linux", "x64",
          ⟨Except.ok (some (some "https://tarball")), true,
            ["package/skia.linux-x64-gnu.node"]⟩, true⟩
        [nodePathOf "/nd" "skia.linux-x64-gnu"] none).events =
      [NetEv.assignGlobal (nodePathOf "/nd" "skia.linux-x64-gnu"),
        NetEv.requireLoad]) ∧
    noNet (getNativeBinding002Run "/nd"
        ⟨false, false, "linux", "x64",
          ⟨Except.ok (some (some "https://tarball")), true,
            ["package/skia.linux-x64-gnu.node"]⟩, true⟩
        (getNativeBinding002Run "/nd"
          ⟨false, false, "linux", "x64",
            ⟨Except.ok (some (some "https://tarball")), true,
              ["package/skia.linux-x64-gnu.node"]⟩, true⟩ [] none).fs
        (getNativeBinding002Run "/nd"
          ⟨false, false, "linux", "x64",
            ⟨Except.ok (some (some "https://tarball")), true,
              ["package/skia.linux-x64-gnu.node"]⟩, true⟩ [] none).globalBinding).events =
      true :=
  ⟨(claim5_installer_idempotent "/nd"
      ⟨false, false, "linux", "x64",
        ⟨Except.ok (some (some "https://tarball")), true,
          ["package/skia.linux-x64-gnu.node"]⟩, true⟩
      [nodePathOf "/nd" "skia.linux-x64-gnu"] none "skia.linux-x64-gnu" rfl
      (by decide)).1 (List.mem_singleton.mpr rfl),
   (claim5_installer_idempotent "/nd"
      ⟨false, false, "linux", "x64",
        ⟨Except.ok (some (some "https://tarball")), true,
          ["package/skia.linux-x64-gnu.node"]⟩, true⟩
      [] none "skia.linux-x64-gnu" rfl (by decide)).2 rfl⟩

/-- C9: whenever resolution computes an artifact path, the invocation sets
`global.GLOBAL_NATIVE_BINDING_PATH` to that path as its first event — before
any registry request, download or module load — and the global keeps that
value whatever the rest of the invocation does (including download and load
failures); when resolution fails no assignment and no download/load happen
at all. -/
theorem claim9_global_assigned_first :
    ∀ (nodeDir : String) (env : InstEnv) (fs0 : List String) (g0 : Option String),
      (∀ nodeName,
        resolveMap env.m1 env.m2 env.platform env.arch = Except.ok nodeName →
        (getNativeBinding002Run nodeDir env fs0 g0).globalBinding =
          some (nodePathOf nodeDir nodeName) ∧
        ∃ rest, (getNativeBinding002Run nodeDir env fs0 g0).events =
          NetEv.assignGlobal (nodePathOf nodeDir nodeName) :: rest) ∧
      (∀ msg,
        resolveMap env.m1 env.m2 env.platform env.arch = Except.error msg →
        (getNativeBinding002Run nodeDir env fs0 g0).globalBinding = g0 ∧
        (getNativeBinding002Run nodeDir env fs0 g0).events = []) := by
  intro nodeDir env fs0 g0
  constructor
  · intro nodeName hres
    rcases env with ⟨m1, m2, pf, ar, ⟨reg, dlOk, ents⟩, rq⟩
    simp only at hres
    simp only [getNativeBinding002Run, hres]
    by_cases hx : nodePathOf nodeDir nodeName ∈ fs0
    · rw [if_pos hx]
      cases rq <;> simp
    · rw [if_neg hx]
      cases reg with
      | error e => simp [handleFile000Run]
      | ok o =>
        cases o with
        | none => simp [handleFile000Run]
        | some t =>
          cases t with
          | none => simp [handleFile000Run]
          | some turl =>
            cases dlOk
            · simp [handleFile000Run]
            · cases rq <;> simp [handleFile000Run]
  · intro msg hres
    simp only [getNativeBinding002Run, hres]
    exact ⟨trivial, trivial⟩

/-- Witness for C9: a concrete invocation whose registry call fails (so the
whole installation fails with a download error) still leaves the global set
to the computed artifact path, assigned as the first event. -/
theorem claim9_global_assigned_first_witness :
    (getNativeBinding002Run "/nd"
        ⟨false, false, "linux", "x64",
          ⟨Except.error "ECONNREFUSED", false, []⟩, false⟩ [] none).globalBinding =
      some (nodePathOf "/nd" "skia.linux-x64-gnu") ∧
    ∃ rest, (getNativeBinding002Run "/nd"
        ⟨false, false, "linux", "x64",
          ⟨Except.error "ECONNREFUSED", false, []⟩, false⟩ [] none).events =
      NetEv.assignGlobal (nodePathOf "/nd" "skia.linux-x64-gnu") :: rest :=
  (claim9_global_assigned_first "/nd"
    ⟨false, false, "linux", "x64",
      ⟨Except.error "ECONNREFUSED", false, []⟩, false⟩ [] none).1
    "skia.linux-x64-gnu" rfl

/-! ## C6: registry-mode failures precede any download -/

/-- C6 counterexample: in the `index.ts` fetcher, a metadata response with no
`dist` object at all (for example the body `{}`) raises a `TypeError` — the
property access `data.dist.tarball` happens outside the `try` — not the
`DownloadError` the claim requires (though still before any download). -/
theorem claim6_counterexample :
    (handleFileFetchRun "/nd" "skia.linux-x64-gnu"
        ⟨Except.ok none, true, []⟩ []).1 =
      Except.error (JsErr.typeErr
        "Cannot read properties of undefined (reading tarball)") ∧
    isDownloadError (handleFileFetchRun "/nd" "skia.linux-x64-gnu"
        ⟨Except.ok none, true, []⟩ []).1 = false ∧
    noDownload (handleFileFetchRun "/nd" "skia.linux-x64-gnu"
        ⟨Except.ok none, true, []⟩ []).2.2 = true :=
  ⟨rfl, rfl, rfl⟩

/-- C6 (amended): when the registry metadata HTTP call fails or the response
lacks `dist.tarball`, both fetchers raise an error before any download
attempt (no download event is emitted, no fallback URL is constructed). The
Quester-based fetcher always raises `DownloadError`; the `fetch`-based one
raises `DownloadError` except when the `dist` object itself is absent, where
a `TypeError` escapes instead. -/
theorem claim6_registry_failure_before_download :
    ∀ (nodeDir nodeName e : String) (dlOk : Bool) (ents fsA : List String),
      ((∃ m, (handleFile000Run nodeDir nodeName
          ⟨Except.error e, dlOk, ents⟩ fsA).1 =
            Except.error (JsErr.downloadErr m)) ∧
        noDownload (handleFile000Run nodeDir nodeName
          ⟨Except.error e, dlOk, ents⟩ fsA).2.2 = true) ∧
      ((∃ m, (handleFile000Run nodeDir nodeName
          ⟨Except.ok none, dlOk, ents⟩ fsA).1 =
            Except.error (JsErr.downloadErr m)) ∧
        noDownload (handleFile000Run nodeDir nodeName
          ⟨Except.ok none, dlOk, ents⟩ fsA).2.2 = true) ∧
      ((∃ m, (handleFile000Run nodeDir nodeName
          ⟨Except.ok (some none), dlOk, ents⟩ fsA).1 =
            Except.error (JsErr.downloadErr m)) ∧
        noDownload (handleFile000Run nodeDir nodeName
          ⟨Except.ok (some none), dlOk, ents⟩ fsA).2.2 = true) ∧
      ((∃ m, (handleFileFetchRun nodeDir nodeName
          ⟨Except.error e, dlOk, ents⟩ fsA).1 =
            Except.error (JsErr.downloadErr m)) ∧
        noDownload (handleFileFetchRun nodeDir nodeName
          ⟨Except.error e, dlOk, ents⟩ fsA).2.2 = true) ∧
      ((∃ m, (handleFileFetchRun nodeDir nodeName
          ⟨Except.ok none, dlOk, ents⟩ fsA).1 =
            Except.error (JsErr.typeErr m)) ∧
        noDownload (handleFileFetchRun nodeDir nodeName
          ⟨Except.ok none, dlOk, ents⟩ fsA).2.2 = true) ∧
      ((∃ m, (handleFileFetchRun nodeDir nodeName
          ⟨Except.ok (some none), dlOk, ents⟩ fsA).1 =
            Except.error (JsErr.downloadErr m)) ∧
        noDownload (handleFileFetchRun nodeDir nodeName
          ⟨Except.ok (some none), dlOk, ents⟩ fsA).2.2 = true) := by
  intro nodeDir nodeName e dlOk ents fsA
  exact ⟨⟨⟨_, rfl⟩, rfl⟩, ⟨⟨_, rfl⟩, rfl⟩, ⟨⟨_, rfl⟩, rfl⟩,
    ⟨⟨_, rfl⟩, rfl⟩, ⟨⟨_, rfl⟩, rfl⟩, ⟨⟨_, rfl⟩, rfl⟩⟩
